import Mathlib

/-!
Shallow embedding of the EU medical-device scrapers
(`german_scraper_main.py`, `dutch_scraper_main.py`, `italy_scraper_main.py`).

HTML documents parsed by BeautifulSoup are modelled as a tree of nodes
(`Node`): text nodes and element nodes with a tag name, an attribute list and
a child list.  BeautifulSoup's `find_all` / `find` search the strict
descendants of the object they are called on, in document (pre)order; we model
the soup object itself as a root element whose strict descendants are
searched.  Python code that can raise is modelled with `Except String`.
-/

inductive Node where
  | text : String → Node
  | elem : String → List (String × String) → List Node → Node

/-- Strict descendants of a node, in document (pre)order. -/
def descendants : Node → List Node
  | .text _ => []
  | .elem _ _ cs => descendantsList cs
where
  descendantsList : List Node → List Node
  | [] => []
  | c :: cs => (c :: descendants c) ++ descendantsList cs

/-- `element.get(key)`: attribute lookup, `none` when absent (text nodes have
no attributes). -/
def getAttr (n : Node) (key : String) : Option String :=
  match n with
  | .text _ => none
  | .elem _ attrs _ => (attrs.find? (fun kv => kv.1 == key)).map Prod.snd

/-- `tag.get_text()` / `.text`: concatenation of all text in the subtree, in
document order. -/
def getText : Node → String
  | .text s => s
  | .elem _ _ cs => getTextList cs
where
  getTextList : List Node → String
  | [] => ""
  | c :: cs => getText c ++ getTextList cs

def isElemNamed (name : String) : Node → Bool
  | .text _ => false
  | .elem tag _ _ => tag == name

/-- Python whitespace for `str.strip()` (the ASCII part, which is all the
scraped sites use). -/
def pyWhitespace (c : Char) : Bool :=
  c == ' ' || c == '\t' || c == '\n' || c == '\r' || c == '\x0b' || c == '\x0c'

def dropLeading (p : Char → Bool) : List Char → List Char
  | [] => []
  | c :: cs => if p c then dropLeading p cs else c :: cs

/-- Python `str.strip()`: remove leading and trailing whitespace. -/
def pstrip (s : String) : String :=
  String.mk ((dropLeading pyWhitespace ((dropLeading pyWhitespace s.data).reverse)).reverse)

/-- Split a character list on a separator character; like Python
`str.split(sep)` for a one-character separator, the result is never empty. -/
def splitOnChar (sep : Char) : List Char → List (List Char)
  | [] => [[]]
  | c :: cs =>
    match splitOnChar sep cs with
    | [] => [[]]
    | h :: t => if c == sep then [] :: h :: t else (c :: h) :: t

/-- Python `s.split('|')`. -/
def psplitPipe (s : String) : List String :=
  (splitOnChar '|' s.data).map String.mk

/-- BeautifulSoup `class_` matching: a single-token query matches when it is
one of the element's (space-separated) classes; a query containing a space
matches only the exact attribute string. -/
def classMatches (query : String) (n : Node) : Bool :=
  match getAttr n "class" with
  | none => false
  | some cls =>
    if query.data.contains ' ' then cls == query
    else ((splitOnChar ' ' cls.data).map String.mk).contains query

/-- `find_all(name)`: all strict descendants with the given tag name. -/
def findAll (name : String) (n : Node) : List Node :=
  (descendants n).filter (isElemNamed name)

/-- `find(name)`: first strict descendant with the given tag name. -/
def findFirst (name : String) (n : Node) : Option Node :=
  (findAll name n).head?

/-- `find_all(name, class_=query)`. -/
def findAllClass (name query : String) (n : Node) : List Node :=
  (descendants n).filter (fun d => isElemNamed name d && classMatches query d)

/-- `find(name, class_=query)` (also used for `attrs={'class': ...}`). -/
def findFirstClass (name query : String) (n : Node) : Option Node :=
  (findAllClass name query n).head?

/-- `find(name, attrs={key: val})`. -/
def findFirstAttr (name key val : String) (n : Node) : Option Node :=
  ((descendants n).filter
    (fun d => isElemNamed name d && (getAttr d key == some val))).head?

example : descendants (Node.elem "html" [] [Node.text "x", Node.elem "p" [] [Node.text "y"]])
    = [Node.text "x", Node.elem "p" [] [Node.text "y"], Node.text "y"] := rfl

example : getText (Node.elem "p" [] [Node.text "a", Node.elem "b" [] [Node.text "c"]]) = "ac" := rfl

example : findFirst "p" (Node.elem "html" [] [Node.elem "p" [] []]) = some (Node.elem "p" [] []) := rfl

/-- `find_all(name)` paired with each match's `next_sibling` (the node right
after it in its parent's child list, which may be a text node, a tag, or
absent), in document order. -/
def findAllWithNext (name : String) : Node → List (Node × Option Node)
  | .text _ => []
  | .elem _ _ cs => findAllWithNextList name cs
where
  findAllWithNextList (name : String) : List Node → List (Node × Option Node)
  | [] => []
  | c :: cs =>
    (if isElemNamed name c then [(c, cs.head?)] else [])
      ++ findAllWithNext name c ++ findAllWithNextList name cs

/-- `x.next_sibling.strip()`: raises when the sibling is absent (`None`) or is
a tag (only `NavigableString` has `strip`). -/
def sibStrip : Option Node → Except String String
  | none => .error "AttributeError: NoneType object has no attribute strip"
  | some (.text s) => .ok (pstrip s)
  | some (.elem _ _ _) => .error "AttributeError: Tag object has no attribute strip"

/-- `element.find(...).text`: raises when `find` returned `None`. -/
def foundText : Option Node → Except String String
  | none => .error "AttributeError: NoneType object has no attribute text"
  | some n => .ok (getText n)

/-- A scraped record: an ordered mapping from field name to string value
(a Python `dict`, which preserves insertion order). -/
abbrev Record := List (String × String)

namespace German

/-- `details_block.find('a')` then `.get_text().strip()` with the "N/A"
sentinel (german_scraper_main.py lines 57-58). -/
def device_of (td1 : Node) : String :=
  match findFirst "a" td1 with
  | some a => pstrip (getText a)
  | none => "N/A"

/-- Body of the `for tr in tr_elements` loop (german_scraper_main.py lines
48-75): `none` means the row was skipped by the `len(tds) < 2` guard. -/
def get_row (tr : Node) : Except String (Option Record) :=
  match findAll "td" tr with
  | td0 :: td1 :: _ =>
    let date := pstrip (getText td0)
    let device := device_of td1
    match findAllWithNext "strong" td1 with
    | s0 :: s1 :: _ => do
      let device_type ← sibStrip s0.2
      let device_reference ← sibStrip s1.2
      .ok (some [("date", date), ("device", device),
                 ("device_type", device_type), ("device_reference", device_reference)])
    | _ =>
      .ok (some [("date", date), ("device", device),
                 ("device_type", "N/A"), ("device_reference", "N/A")])
  | _ => .ok none

/-- The row loop over a given list of `tr` elements; the first raising row
aborts the whole page (no try/except in this variant). -/
def get_rows : List Node → Except String (List Record)
  | [] => .ok []
  | tr :: rest => do
    let r ← get_row tr
    let rs ← get_rows rest
    match r with
    | none => .ok rs
    | some d => .ok (d :: rs)

/-- The record-extraction part of `get_data_page` (lines 46-75). -/
def extract (soup : Node) : Except String (List Record) :=
  get_rows (findAll "tr" soup)

/-- Next-link resolution (lines 77-82):
`soup.find('li', class_='c-navindex__item is-forward').find('a')` raises
`AttributeError` when the `li` is absent, because `.find` is then called on
`None`; when the `li` exists, a missing anchor or missing `href` yields
`None`. -/
def next_link (soup : Node) : Except String (Option String) :=
  match findFirstClass "li" "c-navindex__item is-forward" soup with
  | none => .error "AttributeError: NoneType object has no attribute find"
  | some li =>
    match findFirst "a" li with
    | none => .ok none
    | some a => .ok (getAttr a "href")

/-- `get_data_page` (lines 24-84), abstracted over the fetch+parse result: no
try/except, so a transport failure and any extraction error propagate. -/
def get_data_page (fetched : Except String Node) :
    Except String (List Record × Option String) := do
  let soup ← fetched
  let data_list ← extract soup
  let next_url ← next_link soup
  .ok (data_list, next_url)

end German

namespace Dutch

/-- Body of the `for link in link_elements` loop (dutch_scraper_main.py lines
50-63): each sub-element access is unguarded, so a missing `h3`, `p` or
`p.meta` raises (caught further up by the surrounding try/except). -/
def item (link : Node) : Except String Record := do
  let title ← foundText (findFirst "h3" link)
  let warning_text ← foundText (findFirst "p" link)
  let metaText ← foundText (findFirstClass "p" "meta" link)
  let date := pstrip ((psplitPipe (pstrip metaText)).getLastD "")
  .ok [("title", pstrip title), ("warning_text", pstrip warning_text), ("date", date)]

/-- The item loop over the matched `a.publication` elements. -/
def items : List Node → Except String (List Record)
  | [] => .ok []
  | l :: rest => do
    let d ← item l
    let ds ← items rest
    .ok (d :: ds)

/-- The record-extraction part of `get_data_page` (lines 48-63). -/
def extract (soup : Node) : Except String (List Record) :=
  items (findAllClass "a" "publication" soup)

/-- Next-link resolution (lines 65-77): every access is guarded, so this
never raises; a missing `li`, missing anchor or missing `href` all yield
`None`. -/
def next_link (soup : Node) : Except String (Option String) :=
  match findFirstClass "li" "paging__unit paging__unit--next" soup with
  | none => .ok none
  | some el =>
    match findFirst "a" el with
    | none => .ok none
    | some a => .ok (getAttr a "href")

/-- `get_data_page` (lines 25-83): the whole body sits in
`try: ... except Exception: return [], None`, so any failure — transport or
extraction — is swallowed and turned into "no data, no next page". -/
def get_data_page (fetched : Except String Node) : List Record × Option String :=
  match (do
    let soup ← fetched
    let data_list ← extract soup
    let next_url ← next_link soup
    Except.ok (data_list, next_url) : Except String (List Record × Option String)) with
  | .ok r => r
  | .error _ => ([], none)

end Dutch

/-- `isSurrogate c`: `c` is a Unicode surrogate code point (U+D800..U+DFFF),
invalid in strict UTF-8. -/
def isSurrogate (c : Nat) : Bool := decide (0xD800 ≤ c ∧ c ≤ 0xDFFF)

/-- UTF-8 encoding of one code point as done by
`str.encode('utf-8', 'surrogatepass')`: surrogates are encoded like ordinary
three-byte code points instead of raising. -/
def encodeChar (c : Nat) : List Nat :=
  if c < 0x80 then [c]
  else if c < 0x800 then [0xC0 + c / 0x40, 0x80 + c % 0x40]
  else if c < 0x10000 then [0xE0 + c / 0x1000, 0x80 + c / 0x40 % 0x40, 0x80 + c % 0x40]
  else [0xF0 + c / 0x40000, 0x80 + c / 0x1000 % 0x40, 0x80 + c / 0x40 % 0x40, 0x80 + c % 0x40]

/-- `text.encode('utf-8', 'surrogatepass')` over a Python string modelled as
its list of code points. -/
def encodeSurrogatepass (s : List Nat) : List Nat := (s.map encodeChar).flatten

/-- One step of strict UTF-8 decoding: given the lead byte `b` and the
remaining bytes `t`, return `some (c, k)` when `b` starts a valid sequence
decoding to code point `c` with `k` continuation bytes taken from `t`, and
`none` when `b` does not start a valid sequence (shortest-form only;
surrogates rejected: a lead byte 0xED only accepts second bytes
0x80..0x9F). -/
def utf8Step (b : Nat) (t : List Nat) : Option (Nat × Nat) :=
  if b < 0x80 then some (b, 0)
  else if b < 0xC2 then none
  else if b < 0xE0 then
    match t with
    | b1 :: _ =>
      if 0x80 ≤ b1 ∧ b1 < 0xC0 then some ((b - 0xC0) * 0x40 + (b1 - 0x80), 1)
      else none
    | [] => none
  else if b < 0xF0 then
    match t with
    | b1 :: b2 :: _ =>
      if (0x80 ≤ b1 ∧ b1 < 0xC0) ∧ (0x80 ≤ b2 ∧ b2 < 0xC0)
          ∧ (b = 0xE0 → 0xA0 ≤ b1) ∧ (b = 0xED → b1 < 0xA0) then
        some ((b - 0xE0) * 0x1000 + (b1 - 0x80) * 0x40 + (b2 - 0x80), 2)
      else none
    | _ => none
  else if b < 0xF5 then
    match t with
    | b1 :: b2 :: b3 :: _ =>
      if (0x80 ≤ b1 ∧ b1 < 0xC0) ∧ (0x80 ≤ b2 ∧ b2 < 0xC0) ∧ (0x80 ≤ b3 ∧ b3 < 0xC0)
          ∧ (b = 0xF0 → 0x90 ≤ b1) ∧ (b = 0xF4 → b1 < 0x90) then
        some ((b - 0xF0) * 0x40000 + (b1 - 0x80) * 0x1000 + (b2 - 0x80) * 0x40 + (b3 - 0x80), 3)
      else none
    | _ => none
  else none

/-- `bytes.decode('utf-8', 'ignore')`: strict UTF-8 decoding where the bytes
of an invalid sequence are skipped (a byte that does not start a valid
sequence is dropped and decoding resumes at the next byte, which yields the
same output as CPython's maximal-subpart skipping because continuation bytes
never start a valid sequence). -/
def decodeUtf8Ignore : List Nat → List Nat
  | [] => []
  | b :: t =>
    match utf8Step b t with
    | some (c, k) => c :: decodeUtf8Ignore (t.drop k)
    | none => decodeUtf8Ignore t
termination_by l => l.length
decreasing_by all_goals (simp only [List.length_cons, List.length_drop]; omega)

/-- `remove_surrogates` (italy_scraper_main.py lines 27-36):
`text.encode('utf-8', 'surrogatepass').decode('utf-8', 'ignore')`, over a
Python string modelled as its list of code points (which, unlike a Lean
`String`, can contain lone surrogates). -/
def remove_surrogates (s : List Nat) : List Nat :=
  decodeUtf8Ignore (encodeSurrogatepass s)

namespace Italy

/-- `remove_surrogates` restricted to text representable as a Lean `String`
(whose `Char`s are valid scalar values, never surrogates), as used inside
`scrape_page`; on such text the encode/decode round trip keeps every
character. -/
def remove_surrogates_str (s : String) : String :=
  String.mk (s.data.filter (fun c => !isSurrogate c.toNat))

/-- Body of the `for row in rows[1:]` loop (italy_scraper_main.py lines
70-74): `cols[0]` raises `IndexError` when the row has no `td` cell. -/
def row_record (row : Node) : Except String Record :=
  match findAll "td" row with
  | [] => .error "IndexError: list index out of range"
  | c0 :: _ => .ok [("column_1", remove_surrogates_str (pstrip (getText c0)))]

/-- The row loop over the rows after the header row. -/
def rows_loop : List Node → Except String (List Record)
  | [] => .ok []
  | r :: rest => do
    let d ← row_record r
    let ds ← rows_loop rest
    .ok (d :: ds)

/-- `scrape_page` (lines 56-75): when no table matches the configured class
the function returns an empty list; otherwise the first row (header) is
skipped and each remaining row is extracted. -/
def scrape_page (soup : Node) : Except String (List Record) :=
  match findFirstClass "table" "some_class" soup with
  | none => .ok []
  | some table => rows_loop ((findAll "tr" table).drop 1)

/-- `get_next_page` (lines 79-90): guarded attribute access, never raises. -/
def get_next_page (soup : Node) : Except String (Option String) :=
  match findFirstAttr "a" "title" "Next Page" soup with
  | none => .ok none
  | some el => .ok (getAttr el "href")

/-- One iteration body of `main`'s crawl loop (lines 125-129):
`get_page` (no try/except, so a transport failure propagates) followed by
`scrape_page` and `get_next_page`. -/
def page_step (fetched : Except String Node) :
    Except String (List Record × Option String) := do
  let soup ← fetched
  let data ← scrape_page soup
  let next_url ← get_next_page soup
  .ok (data, next_url)

end Italy

/-- The crawl loop `get_data` shared verbatim by the German and Dutch
variants (lines 87-104 of each) and mirrored by Italy's `main` loop:
`while next_url: data_page, next_url = get_data_page(next_url); extend`.
The loop has no bound in the source; it is embedded with explicit fuel, and
the returned `Nat` instruments the number of fetch (`fetchPage`) calls
performed. A failure of `fetchPage` propagates (as in the German and Italian
variants; the Dutch `get_data_page` never fails by itself). -/
def get_data (fetchPage : String → Except String (List Record × Option String)) :
    Nat → Option String → Except String (List Record × Nat)
  | _, none => .ok ([], 0)
  | 0, some _ => .ok ([], 0)
  | fuel + 1, some url => do
    let (page, next_url) ← fetchPage url
    let (rest, n) ← get_data fetchPage fuel next_url
    .ok (page ++ rest, n + 1)

/-- `csv.DictWriter.writerow(item)` with `fieldnames`: raises `ValueError`
when the dict has a key outside `fieldnames` (`extrasaction='raise'`, the
default); a missing key is filled with the empty-rendered `restval`. -/
def lookupField (r : Record) (k : String) : String :=
  ((r.find? (fun kv => kv.1 == k)).map Prod.snd).getD ""

def writerow (fieldnames : List String) (r : Record) : Except String (List String) :=
  if r.all (fun kv => fieldnames.contains kv.1) then
    .ok (fieldnames.map (fun k => lookupField r k))
  else .error "ValueError: dict contains fields not in fieldnames"

/-- The body of `write_to_csv` after the file is opened (german and dutch
variants, lines 119-125) and of Italy's `save_to_csv` write path:
`keys = data[0].keys()` (raises `IndexError` on empty data), one header row,
then one row per record in collection order. -/
def csvRows : List Record → Except String (List (List String))
  | [] => .error "IndexError: list index out of range"
  | r0 :: rest => do
    let rows ← (r0 :: rest).mapM (writerow (r0.map Prod.fst))
    .ok (r0.map Prod.fst :: rows)

/-- `write_to_csv` (german/dutch, lines 107-125): the file is opened for
writing — created or truncated — *before* `data[0]` is evaluated, so the
`Bool` (file created/truncated) is `true` even when the rows computation
raises. -/
def write_to_csv (data : List Record) : Bool × Except String (List (List String)) :=
  (true, csvRows data)

namespace German

/-- The sink invocation in `main` (german_scraper_main.py lines 139-143):
`write_to_csv` only runs when `data` is truthy (non-empty). -/
def main_write (data : List Record) : Bool × Except String (List (List String)) :=
  if data.isEmpty then (false, .ok []) else write_to_csv data

end German

namespace Dutch

/-- The module-level sink invocation (dutch_scraper_main.py line 134):
`write_to_csv(data, ...)` is called unconditionally. -/
def main_write (data : List Record) : Bool × Except String (List (List String)) :=
  write_to_csv data

end Dutch

namespace Italy

/-- `save_to_csv` (italy_scraper_main.py lines 94-111): the `if data:` guard
comes *before* the file is opened, so nothing is created on empty data and a
diagnostic is printed instead. -/
def save_to_csv (data : List Record) : Bool × Except String (List (List String)) :=
  if data.isEmpty then (false, .ok []) else (true, csvRows data)

end Italy

/-! ### Concrete fixture pages for witnesses and counterexamples -/

/-- A parsed page with no navigation elements, no rows and no matching
repeating elements at all. -/
def pageBare : Node :=
  Node.elem "[document]" [] [Node.elem "html" [] [Node.text "nothing to see"]]

/-- The German forward-navigation list item with a next-page anchor. -/
def liForward : Node :=
  Node.elem "li" [("class", "c-navindex__item is-forward")]
    [Node.elem "a" [("href", "page2.html")] [Node.text "Next"]]

/-- A German page whose forward `li` is present. -/
def pageGermanNav : Node :=
  Node.elem "[document]" [] [Node.elem "ul" [] [liForward]]

/-- The first bold element of the fixture details cells. -/
def strongType : Node := Node.elem "strong" [] [Node.text "Type:"]

/-- The second bold element of the fixture details cells. -/
def strongRef : Node := Node.elem "strong" [] [Node.text "Reference:"]

/-- A date cell. -/
def tdBadDate : Node := Node.elem "td" [] [Node.text "2023-05-01"]

/-- A details cell with two bold elements but no text node after the second
one (its `next_sibling` is `None`). -/
def tdBadDetails : Node :=
  Node.elem "td" [] [strongType, Node.text " implant ", strongRef]

/-- A German data row whose second cell has two bold elements but no text
node after the second one. -/
def trNoTextAfterBold : Node := Node.elem "tr" [] [tdBadDate, tdBadDetails]

/-- A German page containing `trNoTextAfterBold`. -/
def pageGermanBadRow : Node :=
  Node.elem "[document]" [] [Node.elem "table" [] [trNoTextAfterBold]]

/-- A row with a heading cell but no `td` cell. -/
def trNoCells : Node := Node.elem "tr" [] [Node.elem "th" [] [Node.text "header"]]

/-- An Italian page whose matched table has a data row without any `td`. -/
def pageItalyBadRow : Node :=
  Node.elem "[document]" []
    [Node.elem "table" [("class", "some_class")]
      [Node.elem "tr" [] [Node.elem "th" [] [Node.text "header"]], trNoCells]]

/-- First cell of the well-formed German fixture row. -/
def tdDate : Node := Node.elem "td" [] [Node.text " 2023-05-01 "]

/-- Second cell of the well-formed German fixture row: an anchor, then two
bold elements each followed by a text node. -/
def tdDetails : Node :=
  Node.elem "td" []
    [Node.elem "a" [("href", "x.html")] [Node.text " Device X "],
     strongType, Node.text " implant ",
     strongRef, Node.text " R-42 "]

/-- A well-formed German data row with two cells. -/
def trFull : Node := Node.elem "tr" [] [tdDate, tdDetails]

/-- A plain date cell without markup. -/
def tdPlainA : Node := Node.elem "td" [] [Node.text "2023-01-02"]

/-- A plain details cell without anchor or bold elements. -/
def tdPlainB : Node := Node.elem "td" [] [Node.text "just text"]

/-- A German data row with two cells, no anchor and no bold pair. -/
def trPlain : Node := Node.elem "tr" [] [tdPlainA, tdPlainB]

/-- A Dutch page whose publication anchor lacks the expected `h3`. -/
def pageDutchBad : Node :=
  Node.elem "[document]" []
    [Node.elem "a" [("class", "publication")]
      [Node.elem "p" [] [Node.text "warning body"]]]

/-- Concrete records for the sink witness. -/
def recA : Record := [("a", "1"), ("b", "2")]

def recB : Record := [("a", "3"), ("b", "4")]

/-! ### Helper lemmas about the UTF-8 round trip -/

lemma encodeChar_one (c : Nat) (h : c < 0x80) : encodeChar c = [c] := by
  unfold encodeChar
  rw [if_pos h]

lemma encodeChar_two (c : Nat) (h1 : 0x80 ≤ c) (h2 : c < 0x800) :
    encodeChar c = [0xC0 + c / 0x40, 0x80 + c % 0x40] := by
  unfold encodeChar
  rw [if_neg (by omega), if_pos (by omega)]

lemma encodeChar_three (c : Nat) (h1 : 0x800 ≤ c) (h2 : c < 0x10000) :
    encodeChar c = [0xE0 + c / 0x1000, 0x80 + c / 0x40 % 0x40, 0x80 + c % 0x40] := by
  unfold encodeChar
  rw [if_neg (by omega), if_neg (by omega), if_pos (by omega)]

lemma encodeChar_four (c : Nat) (h1 : 0x10000 ≤ c) :
    encodeChar c
      = [0xF0 + c / 0x40000, 0x80 + c / 0x1000 % 0x40, 0x80 + c / 0x40 % 0x40, 0x80 + c % 0x40] := by
  unfold encodeChar
  rw [if_neg (by omega), if_neg (by omega), if_neg (by omega)]

lemma utf8Step_ascii (b : Nat) (t : List Nat) (h : b < 0x80) :
    utf8Step b t = some (b, 0) := by
  unfold utf8Step
  rw [if_pos h]

lemma utf8Step_invalid (b : Nat) (t : List Nat) (h1 : 0x80 ≤ b) (h2 : b < 0xC2) :
    utf8Step b t = none := by
  unfold utf8Step
  rw [if_neg (by omega), if_pos (by omega)]

lemma utf8Step_two (c : Nat) (t : List Nat) (h1 : 0x80 ≤ c) (h2 : c < 0x800) :
    utf8Step (0xC0 + c / 0x40) ((0x80 + c % 0x40) :: t) = some (c, 1) := by
  simp only [utf8Step]
  rw [if_neg (by omega), if_neg (by omega), if_pos (by omega), if_pos (by omega)]
  have h : (0xC0 + c / 0x40 - 0xC0) * 0x40 + (0x80 + c % 0x40 - 0x80) = c := by omega
  rw [h]

lemma utf8Step_three (c : Nat) (t : List Nat) (h1 : 0x800 ≤ c) (h2 : c < 0x10000)
    (hs : c < 0xD800 ∨ 0xDFFF < c) :
    utf8Step (0xE0 + c / 0x1000) ((0x80 + c / 0x40 % 0x40) :: (0x80 + c % 0x40) :: t)
      = some (c, 2) := by
  simp only [utf8Step]
  rw [if_neg (by omega), if_neg (by omega), if_neg (by omega), if_pos (by omega),
    if_pos (by omega)]
  have h : (0xE0 + c / 0x1000 - 0xE0) * 0x1000 + (0x80 + c / 0x40 % 0x40 - 0x80) * 0x40
      + (0x80 + c % 0x40 - 0x80) = c := by omega
  rw [h]

lemma utf8Step_three_surr (c : Nat) (t : List Nat) (h1 : 0xD800 ≤ c) (h2 : c ≤ 0xDFFF) :
    utf8Step (0xE0 + c / 0x1000) ((0x80 + c / 0x40 % 0x40) :: (0x80 + c % 0x40) :: t)
      = none := by
  simp only [utf8Step]
  rw [if_neg (by omega), if_neg (by omega), if_neg (by omega), if_pos (by omega),
    if_neg (by omega)]

lemma utf8Step_four (c : Nat) (t : List Nat) (h1 : 0x10000 ≤ c) (h2 : c < 0x110000) :
    utf8Step (0xF0 + c / 0x40000)
        ((0x80 + c / 0x1000 % 0x40) :: (0x80 + c / 0x40 % 0x40) :: (0x80 + c % 0x40) :: t)
      = some (c, 3) := by
  simp only [utf8Step]
  rw [if_neg (by omega), if_neg (by omega), if_neg (by omega), if_neg (by omega),
    if_pos (by omega), if_pos (by omega)]
  have h : (0xF0 + c / 0x40000 - 0xF0) * 0x40000 + (0x80 + c / 0x1000 % 0x40 - 0x80) * 0x1000
      + (0x80 + c / 0x40 % 0x40 - 0x80) * 0x40 + (0x80 + c % 0x40 - 0x80) = c := by omega
  rw [h]

lemma decode_cons_valid (b : Nat) (t : List Nat) (c k : Nat) (h : utf8Step b t = some (c, k)) :
    decodeUtf8Ignore (b :: t) = c :: decodeUtf8Ignore (t.drop k) := by
  simp only [decodeUtf8Ignore]
  rw [h]

lemma decode_cons_invalid (b : Nat) (t : List Nat) (h : utf8Step b t = none) :
    decodeUtf8Ignore (b :: t) = decodeUtf8Ignore t := by
  simp only [decodeUtf8Ignore]
  rw [h]

/-- Decoding the surrogatepass encoding of one code point followed by
arbitrary bytes: the code point survives exactly when it is not a
surrogate. -/
lemma decode_encodeChar (c : Nat) (hc : c < 0x110000) (t : List Nat) :
    decodeUtf8Ignore (encodeChar c ++ t)
      = if isSurrogate c then decodeUtf8Ignore t else c :: decodeUtf8Ignore t := by
  cases hsb : isSurrogate c with
  | true =>
    have hr : 0xD800 ≤ c ∧ c ≤ 0xDFFF := by
      have := of_decide_eq_true hsb
      exact this
    rw [if_pos (by simp [hsb]), encodeChar_three c (by omega) (by omega)]
    simp only [List.cons_append, List.nil_append]
    rw [decode_cons_invalid _ _ (utf8Step_three_surr c t hr.1 hr.2)]
    rw [decode_cons_invalid _ _ (utf8Step_invalid _ _ (by omega) (by omega))]
    rw [decode_cons_invalid _ _ (utf8Step_invalid _ _ (by omega) (by omega))]
  | false =>
    have hr : c < 0xD800 ∨ 0xDFFF < c := by
      have := of_decide_eq_false hsb
      omega
    rw [if_neg (by simp [hsb])]
    rcases Nat.lt_or_ge c 0x80 with h | h
    · rw [encodeChar_one c h]
      simp only [List.cons_append, List.nil_append]
      rw [decode_cons_valid _ _ _ _ (utf8Step_ascii c t h)]
      simp
    · rcases Nat.lt_or_ge c 0x800 with h8 | h8
      · rw [encodeChar_two c h h8]
        simp only [List.cons_append, List.nil_append]
        rw [decode_cons_valid _ _ _ _ (utf8Step_two c t h h8)]
        simp
      · rcases Nat.lt_or_ge c 0x10000 with h16 | h16
        · rw [encodeChar_three c h8 h16]
          simp only [List.cons_append, List.nil_append]
          rw [decode_cons_valid _ _ _ _ (utf8Step_three c t h8 h16 hr)]
          simp
        · rw [encodeChar_four c h16]
          simp only [List.cons_append, List.nil_append]
          rw [decode_cons_valid _ _ _ _ (utf8Step_four c t h16 hc)]
          simp

lemma encodeSurrogatepass_cons (c : Nat) (s : List Nat) :
    encodeSurrogatepass (c :: s) = encodeChar c ++ encodeSurrogatepass s := by
  simp [encodeSurrogatepass]

/-! ### Helper lemmas about extraction and the CSV sink -/

/-- A row with fewer than two cells falls into the `continue` branch. -/
lemma German.get_row_short (tr : Node) (h : (findAll "td" tr).length < 2) :
    German.get_row tr = .ok none := by
  cases htds : findAll "td" tr with
  | nil => simp [German.get_row, htds]
  | cons td0 rest =>
    cases rest with
    | nil => simp [German.get_row, htds]
    | cons td1 r2 =>
      rw [htds] at h
      simp only [List.length_cons] at h
      omega

/-- A skipped row contributes nothing to the extracted list. -/
lemma German.get_rows_skip (tr : Node) (rest : List Node)
    (h : German.get_row tr = .ok none) :
    German.get_rows (tr :: rest) = German.get_rows rest := by
  simp only [German.get_rows]
  rw [h]
  cases hr : German.get_rows rest <;> rfl

/-- `mapM` over `Except` succeeds pointwise. -/
lemma mapM_ok {α β : Type} (g : α → Except String β) (h : α → β) :
    ∀ l : List α, (∀ x ∈ l, g x = .ok (h x)) → l.mapM g = .ok (l.map h)
  | [], _ => rfl
  | x :: xs, hl => by
    rw [List.mapM_cons, hl x (by simp)]
    rw [mapM_ok g h xs (fun y hy => hl y (by simp [hy]))]
    rfl

lemma lookupField_head (k v : String) (r : Record) : lookupField ((k, v) :: r) k = v := by
  simp [lookupField, List.find?_cons]

lemma lookupField_ne (k q v : String) (r : Record) (h : k ≠ q) :
    lookupField ((k, v) :: r) q = lookupField r q := by
  have hb : ((k, v).1 == q) = false := beq_eq_false_iff_ne.mpr h
  simp [lookupField, List.find?_cons, hb]

/-- Looking every field name of a record back up, in key order, returns the
record's values in order (field names being unique, as in a Python dict). -/
lemma map_lookupField (r : Record) (hnd : (r.map Prod.fst).Nodup) :
    (r.map Prod.fst).map (lookupField r) = r.map Prod.snd := by
  induction r with
  | nil => rfl
  | cons kv r ih =>
    obtain ⟨k, v⟩ := kv
    rw [List.map_cons, List.nodup_cons] at hnd
    obtain ⟨hk, hnd'⟩ := hnd
    simp only [List.map_cons]
    congr 1
    · exact lookupField_head k v r
    · have hcg : (r.map Prod.fst).map (lookupField ((k, v) :: r))
          = (r.map Prod.fst).map (lookupField r) :=
        List.map_congr_left (fun q hq => lookupField_ne k q v r (fun he => hk (he ▸ hq)))
      rw [hcg, ih hnd']

/-- A record whose keys are exactly the field names writes its values in key
order. -/
lemma writerow_ok (fieldnames : List String) (rcd : Record)
    (hk : rcd.map Prod.fst = fieldnames) (hnd : fieldnames.Nodup) :
    writerow fieldnames rcd = .ok (rcd.map Prod.snd) := by
  have hall : rcd.all (fun kv => fieldnames.contains kv.1) = true := by
    rw [List.all_eq_true]
    intro kv hkv
    have : kv.1 ∈ fieldnames := hk ▸ List.mem_map_of_mem Prod.fst hkv
    exact List.elem_iff.mpr this
  unfold writerow
  rw [if_pos hall, ← hk, map_lookupField rcd (hk ▸ hnd)]

/-- On any Python string (code points below 0x110000), `remove_surrogates`
is exactly the removal of surrogate code points. -/
lemma remove_surrogates_eq_filter (s : List Nat) (h : ∀ c ∈ s, c < 0x110000) :
    remove_surrogates s = s.filter (fun c => !isSurrogate c) := by
  induction s with
  | nil => simp [remove_surrogates, encodeSurrogatepass, decodeUtf8Ignore]
  | cons c s ih =>
    have hc : c < 0x110000 := h c (by simp)
    have hs : ∀ x ∈ s, x < 0x110000 := fun x hx => h x (by simp [hx])
    have hstep : remove_surrogates (c :: s)
        = if isSurrogate c then remove_surrogates s else c :: remove_surrogates s := by
      unfold remove_surrogates
      rw [encodeSurrogatepass_cons, decode_encodeChar c hc]
    rw [hstep, ih hs, List.filter_cons]
    cases hsb : isSurrogate c <;> simp [hsb]

/-! ### Claims -/

/-- C1, counterexample: the claim that the Next-Link Resolver "never fails in
either case" is false for the German variant. On a parsed page without the
forward navigation `li`, `soup.find('li', class_='c-navindex__item
is-forward')` returns `None` and the chained `.find('a')` raises
`AttributeError`. -/
theorem c1_resolver_cex :
    German.next_link pageBare
      = .error "AttributeError: NoneType object has no attribute find" := rfl

/-- C1, amended: the Dutch and Italian next-link resolvers always return a
value (the next href, or absence) and never fail; the German resolver does so
provided the page contains the forward navigation list item (even when that
item lacks an anchor or a usable href), but raises when the list item itself
is absent. -/
theorem c1_resolver_amended (p : Node) :
    (∃ v, Dutch.next_link p = .ok v) ∧ (∃ v, Italy.get_next_page p = .ok v) ∧
    (∀ li, findFirstClass "li" "c-navindex__item is-forward" p = some li →
      ∃ v, German.next_link p = .ok v) := by
  refine ⟨?_, ?_, ?_⟩
  · cases h1 : findFirstClass "li" "paging__unit paging__unit--next" p with
    | none => exact ⟨none, by simp [Dutch.next_link, h1]⟩
    | some el =>
      cases h2 : findFirst "a" el with
      | none => exact ⟨none, by simp [Dutch.next_link, h1, h2]⟩
      | some a => exact ⟨getAttr a "href", by simp [Dutch.next_link, h1, h2]⟩
  · cases h1 : findFirstAttr "a" "title" "Next Page" p with
    | none => exact ⟨none, by simp [Italy.get_next_page, h1]⟩
    | some el => exact ⟨getAttr el "href", by simp [Italy.get_next_page, h1]⟩
  · intro li hli
    cases h2 : findFirst "a" li with
    | none => exact ⟨none, by simp [German.next_link, hli, h2]⟩
    | some a => exact ⟨getAttr a "href", by simp [German.next_link, hli, h2]⟩

/-- C1, witness: the amended theorem applied to a concrete page that does
contain the forward `li`. -/
theorem c1_resolver_witness : ∃ v, German.next_link pageGermanNav = .ok v :=
  (c1_resolver_amended pageGermanNav).2.2 liForward rfl

/-- C3, counterexample: with an empty record sequence the Dutch variant does
touch the output destination: `write_to_csv` is invoked unconditionally,
opens (creates or truncates) the file, and only then raises `IndexError` on
`data[0]`. -/
theorem c3_sink_cex :
    Dutch.main_write ([] : List Record)
      = (true, .error "IndexError: list index out of range") := rfl

/-- C3, amended: on an empty crawl the German variant does not invoke the
sink and the Italian variant no-ops with a diagnostic, so neither creates the
output file; the Dutch variant, however, creates/truncates the output file
and then fails with `IndexError` before writing any row. -/
theorem c3_sink_amended :
    German.main_write ([] : List Record) = (false, .ok [])
    ∧ Italy.save_to_csv ([] : List Record) = (false, .ok [])
    ∧ Dutch.main_write ([] : List Record)
        = (true, .error "IndexError: list index out of range") :=
  ⟨rfl, rfl, rfl⟩

/-- C4: a per-page transport failure is propagated to the caller by the
German and Italian variants and silently swallowed by the Dutch variant
only, which returns it as "no data, no next page". -/
theorem c4_transport_failure (e : String) :
    Dutch.get_data_page (.error e) = ([], none)
    ∧ German.get_data_page (.error e) = .error e
    ∧ Italy.page_step (.error e) = .error e :=
  ⟨rfl, rfl, rfl⟩

/-- C7: a parsed page with zero elements matching the site-specific repeating
pattern (no table rows, no publication anchors, no matching table) yields an
empty record sequence, not a failure, in each variant. -/
theorem c7_zero_matches (p : Node) :
    (findAll "tr" p = [] → German.extract p = .ok [])
    ∧ (findAllClass "a" "publication" p = [] → Dutch.extract p = .ok [])
    ∧ (findFirstClass "table" "some_class" p = none → Italy.scrape_page p = .ok []) := by
  refine ⟨?_, ?_, ?_⟩
  · intro h
    simp [German.extract, h, German.get_rows]
  · intro h
    simp [Dutch.extract, h, Dutch.items]
  · intro h
    simp [Italy.scrape_page, h]

/-- C7, witness: all three extractors on a concrete page with no matching
repeating elements. -/
theorem c7_zero_matches_witness :
    German.extract pageBare = .ok [] ∧ Dutch.extract pageBare = .ok []
      ∧ Italy.scrape_page pageBare = .ok [] :=
  ⟨(c7_zero_matches pageBare).1 rfl, (c7_zero_matches pageBare).2.1 rfl,
   (c7_zero_matches pageBare).2.2 rfl⟩

/-- C2, counterexample: extraction does raise for a missing optional
sub-element of a matched repeating element. The German extractor raises when
a bold element of a row's details cell has no following text node (the
unguarded `next_sibling.strip()`), and the Italian extractor raises when a
data row of the matched table has no cell (the unguarded `cols[0]`). -/
theorem c2_extractor_cex :
    German.extract pageGermanBadRow
        = .error "AttributeError: NoneType object has no attribute strip"
      ∧ Italy.scrape_page pageItalyBadRow
        = .error "IndexError: list index out of range" :=
  ⟨rfl, rfl⟩

/-- C2, amended: the German extractor substitutes "N/A" for a missing anchor
and for a missing bold pair, but raises when one of the first two bold
elements (when at least two exist) has no following text node; the Italian
extractor raises when a matched data row has no cell element; the Dutch
extractor never raises — its page-wide try/except instead turns any missing
sub-element into an empty result ("no data, no next page") for the whole
page, rather than skipping just the affected row. -/
theorem c2_extractor_amended :
    (∀ td1, findFirst "a" td1 = none → German.device_of td1 = "N/A")
    ∧ (∀ tr td0 td1 r, findAll "td" tr = td0 :: td1 :: r →
        (findAllWithNext "strong" td1).length < 2 →
        German.get_row tr = .ok (some [("date", pstrip (getText td0)),
          ("device", German.device_of td1),
          ("device_type", "N/A"), ("device_reference", "N/A")]))
    ∧ (∀ tr td0 td1 r s0 s1 t0 r2, findAll "td" tr = td0 :: td1 :: r →
        findAllWithNext "strong" td1 = (s0, some (Node.text t0)) :: (s1, none) :: r2 →
        German.get_row tr = .error "AttributeError: NoneType object has no attribute strip")
    ∧ (∀ row, findAll "td" row = [] →
        Italy.row_record row = .error "IndexError: list index out of range")
    ∧ (∀ soup e, Dutch.extract soup = .error e →
        Dutch.get_data_page (.ok soup) = ([], none)) := by
  refine ⟨?_, ?_, ?_, ?_, ?_⟩
  · intro td1 h
    simp [German.device_of, h]
  · intro tr td0 td1 r htds hlen
    cases hstr : findAllWithNext "strong" td1 with
    | nil => simp [German.get_row, htds, hstr]
    | cons s0 rest =>
      cases rest with
      | nil => simp [German.get_row, htds, hstr]
      | cons s1 r2 =>
        rw [hstr] at hlen
        simp only [List.length_cons] at hlen
        omega
  · intro tr td0 td1 r s0 s1 t0 r2 htds hstr
    simp only [German.get_row, htds, hstr, sibStrip]
    rfl
  · intro row h
    simp [Italy.row_record, h]
  · intro soup e h
    have hh : (do
        let soup ← (Except.ok soup : Except String Node)
        let data_list ← Dutch.extract soup
        let next_url ← Dutch.next_link soup
        Except.ok (data_list, next_url)
        : Except String (List Record × Option String)) = .error e := by
      show (do
        let data_list ← Dutch.extract soup
        let next_url ← Dutch.next_link soup
        Except.ok (data_list, next_url)
        : Except String (List Record × Option String)) = .error e
      rw [h]
      rfl
    unfold Dutch.get_data_page
    rw [hh]

/-- C2, witness: the amended theorem applied at concrete rows and pages:
sentinel substitution for a missing anchor and missing bold pair, the German
and Italian raising cases, and the Dutch page-wide swallow. -/
theorem c2_extractor_witness :
    German.device_of tdPlainB = "N/A"
    ∧ German.get_row trPlain = .ok (some [("date", "2023-01-02"), ("device", "N/A"),
        ("device_type", "N/A"), ("device_reference", "N/A")])
    ∧ German.get_row trNoTextAfterBold
        = .error "AttributeError: NoneType object has no attribute strip"
    ∧ Italy.row_record trNoCells = .error "IndexError: list index out of range"
    ∧ Dutch.get_data_page (.ok pageDutchBad) = ([], none) :=
  ⟨c2_extractor_amended.1 tdPlainB rfl,
   c2_extractor_amended.2.1 trPlain tdPlainA tdPlainB [] rfl (by decide),
   c2_extractor_amended.2.2.1 trNoTextAfterBold tdBadDate tdBadDetails []
     strongType strongRef " implant " [] rfl rfl,
   c2_extractor_amended.2.2.2.1 trNoCells rfl,
   c2_extractor_amended.2.2.2.2 pageDutchBad
     "AttributeError: NoneType object has no attribute text" rfl⟩

/-- C5: for a German row with at least two cells: the date is the first
cell's trimmed text; the device is the first anchor's trimmed text in the
second cell, or "N/A" when no anchor exists; and when the second cell's first
two bold elements are each followed by a text node, device_type and
device_reference are those texts trimmed, while fewer than two bold elements
yield "N/A" for both. -/
theorem c5_tabular_row (tr td0 td1 : Node) (r : List Node)
    (htds : findAll "td" tr = td0 :: td1 :: r) :
    (∀ s0 s1 t0 t1 r2,
      findAllWithNext "strong" td1
          = (s0, some (Node.text t0)) :: (s1, some (Node.text t1)) :: r2 →
      German.get_row tr = .ok (some [("date", pstrip (getText td0)),
        ("device", German.device_of td1),
        ("device_type", pstrip t0), ("device_reference", pstrip t1)]))
    ∧ ((findAllWithNext "strong" td1).length < 2 →
      German.get_row tr = .ok (some [("date", pstrip (getText td0)),
        ("device", German.device_of td1),
        ("device_type", "N/A"), ("device_reference", "N/A")]))
    ∧ (findFirst "a" td1 = none → German.device_of td1 = "N/A")
    ∧ (∀ a, findFirst "a" td1 = some a → German.device_of td1 = pstrip (getText a)) := by
  refine ⟨?_, ?_, ?_, ?_⟩
  · intro s0 s1 t0 t1 r2 hstr
    simp only [German.get_row, htds, hstr, sibStrip]
    rfl
  · intro hlen
    cases hstr : findAllWithNext "strong" td1 with
    | nil => simp [German.get_row, htds, hstr]
    | cons s0 rest =>
      cases rest with
      | nil => simp [German.get_row, htds, hstr]
      | cons s1 r2 =>
        rw [hstr] at hlen
        simp only [List.length_cons] at hlen
        omega
  · intro h
    simp [German.device_of, h]
  · intro a h
    simp [German.device_of, h]

/-- C5, witness: the theorem applied to a concrete well-formed row. -/
theorem c5_tabular_row_witness :
    German.get_row trFull = .ok (some [("date", "2023-05-01"), ("device", "Device X"),
      ("device_type", "implant"), ("device_reference", "R-42")]) :=
  (c5_tabular_row trFull tdDate tdDetails [] rfl).1 strongType strongRef
    " implant " " R-42 " [] rfl

/-- C6: a table row with fewer than two cell elements is excluded from the
German extractor's output, whatever rows surround it. -/
theorem c6_short_row_excluded (pre post : List Node) (tr : Node)
    (h : (findAll "td" tr).length < 2) :
    German.get_rows (pre ++ tr :: post) = German.get_rows (pre ++ post) := by
  induction pre with
  | nil =>
    simp only [List.nil_append]
    exact German.get_rows_skip tr post (German.get_row_short tr h)
  | cons x pre ih =>
    simp only [List.cons_append, German.get_rows, List.append_eq]
    rw [ih]

/-- C6, witness: the theorem applied to a concrete row list containing a
cell-less row. -/
theorem c6_short_row_excluded_witness :
    German.get_rows [trFull, trNoCells] = German.get_rows [trFull] :=
  c6_short_row_excluded [trFull] [] trNoCells (by decide)


/-- C8: over a chain of K ≥ 1 pages in which pages 1..K-1 each resolve a next
link and page K's next link is absent, the crawl loop performs exactly K
fetch operations (the instrumented count returned by `get_data`), collects
the pages' records in page order, and terminates. -/
theorem c8_crawl_chain (K : Nat) :
    ∀ (fuel : Nat) (u : Nat → String) (r : Nat → List Record)
      (f : String → Except String (List Record × Option String)),
    1 ≤ K → K ≤ fuel →
    (∀ i, i < K → f (u i) = .ok (r i, if i + 1 < K then some (u (i + 1)) else none)) →
    get_data f fuel (some (u 0)) = .ok (((List.range K).map r).flatten, K) := by
  induction K with
  | zero => omega
  | succ K ih =>
    intro fuel u r f hK hfuel hf
    cases fuel with
    | zero => omega
    | succ fuel =>
      have hf0 := hf 0 (by omega)
      by_cases hK0 : K = 0
      · subst hK0
        rw [if_neg (by omega)] at hf0
        have hnone : get_data f fuel none = .ok ([], 0) := by
          cases fuel <;> rfl
        simp only [get_data]
        rw [hf0]
        show (do
            let e ← get_data f fuel none
            Except.ok (r 0 ++ e.1, e.2 + 1)
            : Except String (List Record × Nat))
          = Except.ok (((List.range (0 + 1)).map r).flatten, 0 + 1)
        rw [hnone]
        show Except.ok (r 0 ++ [], 0 + 1) = _
        simp [List.range_succ_eq_map]
      · have h1K : 1 ≤ K := by omega
        rw [if_pos (by omega)] at hf0
        have hshift : ∀ i, i < K →
            f (u (i + 1)) = .ok (r (i + 1), if i + 1 < K then some (u (i + 1 + 1)) else none) := by
          intro i hi
          by_cases hi1 : i + 1 < K
          · rw [if_pos hi1]
            have h2 := hf (i + 1) (by omega)
            rwa [if_pos (by omega)] at h2
          · rw [if_neg hi1]
            have h2 := hf (i + 1) (by omega)
            rwa [if_neg (by omega)] at h2
        have hrec : get_data f fuel (some (u 1))
            = .ok (((List.range K).map (fun i => r (i + 1))).flatten, K) :=
          ih fuel (fun i => u (i + 1)) (fun i => r (i + 1)) f h1K (by omega) hshift
        simp only [get_data]
        rw [hf0]
        show (do
            let e ← get_data f fuel (some (u 1))
            Except.ok (r 0 ++ e.1, e.2 + 1)
            : Except String (List Record × Nat))
          = Except.ok (((List.range (K + 1)).map r).flatten, K + 1)
        rw [hrec]
        show Except.ok (r 0 ++ ((List.range K).map (fun i => r (i + 1))).flatten, K + 1)
          = Except.ok (((List.range (K + 1)).map r).flatten, K + 1)
        rw [List.range_succ_eq_map]
        simp only [List.map_cons, List.map_map, List.flatten_cons]
        rfl

/-- C8, witness: a one-page chain whose page resolves no next link causes
exactly one fetch. -/
theorem c8_crawl_chain_witness :
    get_data (fun _ => .ok ([], none)) 1 (some "start")
      = .ok ((((List.range 1).map (fun _ => ([] : List Record))).flatten), 1) :=
  c8_crawl_chain 1 1 (fun _ => "start") (fun _ => []) (fun _ => .ok ([], none))
    (by omega) (by omega) (fun i hi => by rw [if_neg (by omega)])

/-- C9: for a non-empty record sequence whose records all share the first
record's field names (in that record's key order, names unique as in a
Python dict), the sink opens the file and writes exactly one header row of
those field names followed by one row per record in collection order, each
row holding that record's values in the same key order. -/
theorem c9_sink_rows (data : List Record) (fieldnames : List String)
    (hne : data ≠ [])
    (hk : ∀ rcd ∈ data, rcd.map Prod.fst = fieldnames)
    (hnd : fieldnames.Nodup) :
    write_to_csv data
      = (true, .ok (fieldnames :: data.map (fun rcd => rcd.map Prod.snd))) := by
  cases data with
  | nil => exact absurd rfl hne
  | cons r0 rest =>
    have h0 : r0.map Prod.fst = fieldnames := hk r0 (by simp)
    simp only [write_to_csv, csvRows]
    rw [h0]
    rw [mapM_ok (writerow fieldnames) (fun rcd => rcd.map Prod.snd) (r0 :: rest)
      (fun x hx => writerow_ok fieldnames x (hk x hx) hnd)]
    rfl

/-- C9, witness: the sink applied to two concrete records. -/
theorem c9_sink_rows_witness :
    write_to_csv [recA, recB] = (true, .ok [["a", "b"], ["1", "2"], ["3", "4"]]) :=
  c9_sink_rows [recA, recB] ["a", "b"] (by simp) (by decide) (by decide)

/-- C10: the surrogate-stripping normalization is idempotent on Python
strings (lists of code points below 0x110000). -/
theorem c10_remove_surrogates_idem (s : List Nat) (h : ∀ c ∈ s, c < 0x110000) :
    remove_surrogates (remove_surrogates s) = remove_surrogates s := by
  rw [remove_surrogates_eq_filter s h]
  rw [remove_surrogates_eq_filter _ (fun c hc => h c (List.mem_of_mem_filter hc))]
  rw [List.filter_filter]
  simp

/-- C10, witness: the theorem applied to a concrete string containing a lone
surrogate. -/
theorem c10_remove_surrogates_idem_witness :
    remove_surrogates (remove_surrogates [0x61, 0xD800, 0x10FFFF])
      = remove_surrogates [0x61, 0xD800, 0x10FFFF] :=
  c10_remove_surrogates_idem [0x61, 0xD800, 0x10FFFF] (by decide)

/-- C4, witness: the transport-failure theorem at a concrete failure. -/
theorem c4_transport_failure_witness :
    Dutch.get_data_page (.error "requests.exceptions.ConnectTimeout") = ([], none)
    ∧ German.get_data_page (.error "requests.exceptions.ConnectTimeout")
        = .error "requests.exceptions.ConnectTimeout"
    ∧ Italy.page_step (.error "requests.exceptions.ConnectTimeout")
        = .error "requests.exceptions.ConnectTimeout" :=
  c4_transport_failure "requests.exceptions.ConnectTimeout"
